import Mathlib

/-!
# Verification of the mental-health platform core (`src/mental_health.py`)

Shallow embedding of the credential store, the per-user record store and the
questionnaire screening engine of the Streamlit application, together with
proofs of the specified properties.

Conventions of the embedding:
* Python `range(a, b)` membership (`x in range(a, b)`) is `a ≤ x ∧ x < b`.
* SQLite tables are lists of rows kept in insertion order; `AUTOINCREMENT`
  primary keys are modelled by a `next_id` counter.  Rows are inserted with
  `CURRENT_TIMESTAMP`, so insertion order coincides with timestamp order and
  `ORDER BY timestamp DESC` is list reversal.
* `hashlib.sha256(...).hexdigest()` is a deterministic function of the
  password string; the development is parametric in that function
  (`h : String → String`), so every theorem holds in particular for SHA-256.
-/

namespace MentalHealth

/-- A Python `range(lo, hi)` object, used only for membership tests. -/
structure PyRange where
  lo : Nat
  hi : Nat
deriving Repr, DecidableEq

/-- Python membership `x in range(lo, hi)`: `lo ≤ x < hi`. -/
def PyRange.contains (r : PyRange) (x : Nat) : Bool :=
  decide (r.lo ≤ x ∧ x < r.hi)

/-- The PHQ-9 threshold dictionary (source lines 29–34): four named ranges. -/
structure PHQ9ThresholdDict where
  none_mild : PyRange
  moderate : PyRange
  moderately_severe : PyRange
  severe : PyRange

/-- `PHQ9_THRESHOLDS` from the source:
`none_mild = range(0,10)`, `moderate = range(10,15)`,
`moderately_severe = range(15,20)`, `severe = range(20,100)`. -/
def PHQ9_THRESHOLDS : PHQ9ThresholdDict :=
  { none_mild := ⟨0, 10⟩
    moderate := ⟨10, 15⟩
    moderately_severe := ⟨15, 20⟩
    severe := ⟨20, 100⟩ }

/-- The GAD-7 threshold dictionary (source lines 36–40): three named ranges. -/
structure GAD7ThresholdDict where
  none_mild : PyRange
  moderate : PyRange
  severe : PyRange

/-- `GAD7_THRESHOLDS` from the source:
`none_mild = range(0,10)`, `moderate = range(10,15)`, `severe = range(15,22)`. -/
def GAD7_THRESHOLDS : GAD7ThresholdDict :=
  { none_mild := ⟨0, 10⟩
    moderate := ⟨10, 15⟩
    severe := ⟨15, 22⟩ }

/-- The PHQ-9 category assignment of `screening_page` (source lines 234–238):
`category = "Unknown"` followed by an `if`/`elif` chain of range-membership
tests, first match wins. -/
def phq9_category (total_score : Nat) : String :=
  if PHQ9_THRESHOLDS.none_mild.contains total_score then "None to Mild Depression"
  else if PHQ9_THRESHOLDS.moderate.contains total_score then "Moderate Depression"
  else if PHQ9_THRESHOLDS.moderately_severe.contains total_score then "Moderately Severe Depression"
  else if PHQ9_THRESHOLDS.severe.contains total_score then "Severe Depression"
  else "Unknown"

/-- The GAD-7 category assignment of `screening_page` (source lines 275–278). -/
def gad7_category (total_score : Nat) : String :=
  if GAD7_THRESHOLDS.none_mild.contains total_score then "None to Mild Anxiety"
  else if GAD7_THRESHOLDS.moderate.contains total_score then "Moderate Anxiety"
  else if GAD7_THRESHOLDS.severe.contains total_score then "Severe Anxiety"
  else "Unknown"

/-- Outcome of one screening run: the fields computed by `screening_page`
before persisting and before deciding whether to surface the helpline. -/
structure ScreeningOutcome where
  total_score : Nat
  category : String
  escalate : Bool
deriving Repr, DecidableEq

/-- One PHQ-9 run of `screening_page` (source lines 232–253):
`total_score = sum(results)`, the category chain, and the crisis branch
`if total_score >= 10` that surfaces `EMERGENCY_HELPLINE`. -/
def phq9_run (results : List Nat) : ScreeningOutcome :=
  let total_score := results.sum
  { total_score := total_score
    category := phq9_category total_score
    escalate := decide (10 ≤ total_score) }

/-- One GAD-7 run of `screening_page` (source lines 273–293). -/
def gad7_run (results : List Nat) : ScreeningOutcome :=
  let total_score := results.sum
  { total_score := total_score
    category := gad7_category total_score
    escalate := decide (10 ≤ total_score) }

/-- The fixed answer option list of both questionnaires (source lines 224, 265):
`["Not at all", "Several days", "More than half the days", "Nearly every day"]`. -/
def OPTIONS : List String :=
  ["Not at all", "Several days", "More than half the days", "Nearly every day"]

/-- The nine PHQ-9 questions (source lines 213–223). -/
def PHQ9_QUESTIONS : List String :=
  [ "Little interest or pleasure in doing things"
  , "Feeling down, depressed, or hopeless"
  , "Trouble falling or staying asleep, or sleeping too much"
  , "Feeling tired or having little energy"
  , "Poor appetite or overeating"
  , "Feeling bad about yourself - or that you are a failure or have let yourself or your family down"
  , "Trouble concentrating on things, such as reading the newspaper or watching television"
  , "Moving or speaking so slowly that other people could have noticed? Or the opposite - being so fidgety or restless that you have been moving around a lot more than usual"
  , "Thoughts that you would be better off dead or of hurting yourself in some way" ]

/-- The seven GAD-7 questions (source lines 256–264). -/
def GAD7_QUESTIONS : List String :=
  [ "Feeling nervous, anxious, or on edge"
  , "Not being able to stop or control worrying"
  , "Worrying too much about different things"
  , "Trouble relaxing"
  , "Being so restless that it is hard to sit still"
  , "Becoming easily annoyed or irritable"
  , "Feeling afraid as if something awful might happen" ]

/-- `scores = {option: i for i, option in enumerate(options)}` followed by
`results.append(scores[answer])` (source lines 225–230): each `st.radio`
call returns one of the four options, and the page appends that option's
index.  A completed form is therefore a choice of one option index per
question; `collect_results` is the `results` list the page builds from it. -/
def collect_results (questions : List String) (choice : Nat → Fin OPTIONS.length) :
    List Nat :=
  (List.range questions.length).map fun i => (choice i).val

/-- A row of the `users` table (source lines 54–60):
`id INTEGER PRIMARY KEY AUTOINCREMENT, username TEXT NOT NULL UNIQUE,
password TEXT NOT NULL` — the `password` column stores the hash. -/
structure UserRow where
  id : Nat
  username : String
  password : String
deriving Repr, DecidableEq

/-- The `users` table: rows in insertion order plus the autoincrement counter. -/
structure UsersTable where
  rows : List UserRow
  next_id : Nat
deriving Repr, DecidableEq

/-- `INSERT INTO users (username, password) VALUES (?, ?)` under the
`UNIQUE` constraint on `username`: `none` models the `sqlite3.IntegrityError`
raised when the username already exists. -/
def UsersTable.insert (t : UsersTable) (username password : String) :
    Option UsersTable :=
  if t.rows.any fun r => r.username = username then none
  else some ⟨t.rows ++ [⟨t.next_id, username, password⟩], t.next_id + 1⟩

/-- `signup(username, password)` (source lines 117–128): hashes the password
with `h` (SHA-256 in the source) and attempts the insert; on
`IntegrityError` it returns `False` and the transaction is never committed,
so the table is unchanged. -/
def signup (h : String → String) (t : UsersTable) (username password : String) :
    Bool × UsersTable :=
  match t.insert username (h password) with
  | some t' => (true, t')
  | none => (false, t)

/-- `login(username, password)` (source lines 130–137):
`SELECT * FROM users WHERE username = ? AND password = hash_password(password)`
followed by `fetchone()` — the first row matching both columns, or nothing. -/
def login (h : String → String) (t : UsersTable) (username password : String) :
    Option UserRow :=
  t.rows.find? fun r => r.username = username && r.password = h password

/-- A row of `journal_entries` (source lines 62–70); `timestamp` is the
insertion instant, so stored rows are in nondecreasing timestamp order. -/
structure JournalRow where
  id : Nat
  user_id : Nat
  timestamp : Nat
  entry_text : String
deriving Repr, DecidableEq

/-- A row of `mood_entries` (source lines 72–81). -/
structure MoodRow where
  id : Nat
  user_id : Nat
  timestamp : Nat
  mood_score : Nat
  mood_notes : String
deriving Repr, DecidableEq

/-- A row of `screening_results` (source lines 83–93). -/
structure ScreeningRow where
  id : Nat
  user_id : Nat
  test_type : String
  timestamp : Nat
  score : Nat
  category : String
deriving Repr, DecidableEq

/-- One per-user table of the record store: rows in insertion order, the
autoincrement counter, and a clock supplying `CURRENT_TIMESTAMP`. -/
structure Table (ρ : Type) where
  rows : List ρ
  next_id : Nat
  now : Nat
deriving Repr, DecidableEq

/-- `INSERT INTO journal_entries (user_id, entry_text) VALUES (?, ?)`
(source line 152), stamped with the current time. -/
def Table.insertJournal (t : Table JournalRow) (uid : Nat) (text : String) :
    Table JournalRow :=
  ⟨t.rows ++ [⟨t.next_id, uid, t.now, text⟩], t.next_id + 1, t.now + 1⟩

/-- `INSERT INTO mood_entries (user_id, mood_score, mood_notes)` (source
line 183). -/
def Table.insertMood (t : Table MoodRow) (uid score : Nat) (notes : String) :
    Table MoodRow :=
  ⟨t.rows ++ [⟨t.next_id, uid, t.now, score, notes⟩], t.next_id + 1, t.now + 1⟩

/-- `INSERT INTO screening_results (user_id, test_type, score, category)`
(source lines 246, 286). -/
def Table.insertScreening (t : Table ScreeningRow) (uid : Nat)
    (test_type : String) (score : Nat) (category : String) :
    Table ScreeningRow :=
  ⟨t.rows ++ [⟨t.next_id, uid, test_type, t.now, score, category⟩],
    t.next_id + 1, t.now + 1⟩

/-- `SELECT timestamp, entry_text FROM journal_entries WHERE user_id = {uid}
ORDER BY timestamp DESC` (source line 163): rows are stored in timestamp
order, so descending order is the reversed filter. -/
def journal_list_for_user (t : Table JournalRow) (uid : Nat) : List JournalRow :=
  (t.rows.filter fun r => r.user_id = uid).reverse

/-- `SELECT timestamp, mood_score FROM mood_entries WHERE user_id = {uid}
ORDER BY timestamp ASC` (source line 191). -/
def mood_list_for_user (t : Table MoodRow) (uid : Nat) : List MoodRow :=
  t.rows.filter fun r => r.user_id = uid

/-- The screening-result rows of one user (`WHERE user_id` scoping shared by
every per-user query of the store). -/
def screening_list_for_user (t : Table ScreeningRow) (uid : Nat) :
    List ScreeningRow :=
  t.rows.filter fun r => r.user_id = uid

/-- The `Save Entry` branch of `journal_page` (source lines 148–159):
`if entry:` — a Python string is truthy exactly when it is non-empty — the
row is inserted and success is reported; otherwise the table is untouched
and the user is warned (`Bool` records which branch ran). -/
def journal_save (t : Table JournalRow) (uid : Nat) (entry : String) :
    Table JournalRow × Bool :=
  if entry ≠ "" then (t.insertJournal uid entry, true)
  else (t, false)

/-- The `Log Mood` branch of `mood_tracker_page` (source lines 177–187).
`mood_score` comes from `st.slider("...", 1, 5, 3)` whose bounds are part of
the source: the widget can only yield a value in `[1, 5]`, so a submission
whose score lies outside the slider's range never reaches the `INSERT`; the
guard embeds those widget bounds.  `Bool` reports whether a row was logged. -/
def mood_submit (t : Table MoodRow) (uid score : Nat) (notes : String) :
    Table MoodRow × Bool :=
  if 1 ≤ score ∧ score ≤ 5 then (t.insertMood uid score notes, true)
  else (t, false)

/-! ## Helper lemmas -/

/-- The PHQ-9 if/elif chain collapses to a single cascade of score
comparisons: the four ranges are consulted in order and `range(20, 100)` is
the last one, so scores of 100 and above fall through to `"Unknown"`. -/
theorem phq9_category_spec (s : Nat) :
    phq9_category s =
      if s < 10 then "None to Mild Depression"
      else if s < 15 then "Moderate Depression"
      else if s < 20 then "Moderately Severe Depression"
      else if s < 100 then "Severe Depression"
      else "Unknown" := by
  simp only [phq9_category, PHQ9_THRESHOLDS, PyRange.contains, decide_eq_true_eq]
  split_ifs <;> first | rfl | (exfalso; omega)

/-- The GAD-7 chain collapses the same way; `range(15, 22)` is last, so
scores of 22 and above fall through to `"Unknown"`. -/
theorem gad7_category_spec (s : Nat) :
    gad7_category s =
      if s < 10 then "None to Mild Anxiety"
      else if s < 15 then "Moderate Anxiety"
      else if s < 22 then "Severe Anxiety"
      else "Unknown" := by
  simp only [gad7_category, GAD7_THRESHOLDS, PyRange.contains, decide_eq_true_eq]
  split_ifs <;> first | rfl | (exfalso; omega)

/-- A sum of `n` naturals that are each at most `b` is at most `n * b`. -/
theorem sum_le_of_mem_le (l : List Nat) (b : Nat) (hb : ∀ x ∈ l, x ≤ b) :
    l.sum ≤ l.length * b := by
  induction l with
  | nil => simp
  | cons x xs ih =>
    have hx : x ≤ b := hb x (List.mem_cons_self x xs)
    have hxs : xs.sum ≤ xs.length * b :=
      ih fun y hy => hb y (List.mem_cons_of_mem x hy)
    simp only [List.sum_cons, List.length_cons]
    calc x + xs.sum ≤ b + xs.length * b := Nat.add_le_add hx hxs
      _ = (xs.length + 1) * b := by ring

/-- In a list whose matches of `p` are all equal to `a`, `find?` returns `a`
as soon as `a` is a member that matches. -/
theorem find?_eq_some_of_unique {α : Type} (p : α → Bool) (l : List α) (a : α)
    (ha : a ∈ l) (hpa : p a = true)
    (huniq : ∀ b ∈ l, p b = true → b = a) :
    l.find? p = some a := by
  induction l with
  | nil => cases ha
  | cons x xs ih =>
    by_cases hx : p x = true
    · have hxa : x = a := huniq x (List.mem_cons_self x xs) hx
      rw [List.find?_cons_of_pos _ hx, hxa]
    · rw [List.find?_cons_of_neg _ (by simpa using hx)]
      rcases List.mem_cons.mp ha with rfl | ha2
      · exact absurd hpa hx
      · exact ih ha2 fun b hb hpb => huniq b (List.mem_cons_of_mem x hb) hpb

/-! ## Claim theorems -/

/-- C1: for every run of either variant, the crisis-escalation signal (the
branch surfacing `EMERGENCY_HELPLINE`) fires if and only if `total_score`
is at least 10; at the boundary a total of 9 does not escalate and a total
of 10 does, for PHQ-9 and GAD-7 alike. -/
theorem escalate_iff_score_ge_ten :
    (∀ results : List Nat,
      (phq9_run results).escalate = true ↔ 10 ≤ (phq9_run results).total_score) ∧
    (∀ results : List Nat,
      (gad7_run results).escalate = true ↔ 10 ≤ (gad7_run results).total_score) ∧
    (phq9_run [3, 3, 3, 0, 0, 0, 0, 0, 0]).total_score = 9 ∧
    (phq9_run [3, 3, 3, 0, 0, 0, 0, 0, 0]).escalate = false ∧
    (phq9_run [3, 3, 3, 1, 0, 0, 0, 0, 0]).total_score = 10 ∧
    (phq9_run [3, 3, 3, 1, 0, 0, 0, 0, 0]).escalate = true ∧
    (gad7_run [3, 3, 3, 0, 0, 0, 0]).total_score = 9 ∧
    (gad7_run [3, 3, 3, 0, 0, 0, 0]).escalate = false ∧
    (gad7_run [3, 3, 3, 1, 0, 0, 0]).total_score = 10 ∧
    (gad7_run [3, 3, 3, 1, 0, 0, 0]).escalate = true := by
  refine ⟨fun results => ?_, fun results => ?_, by decide⟩ <;>
    simp [phq9_run, gad7_run]

/-- C2: on every valid PHQ-9 answer list (length 9, entries in `[0,3]`) the
total score is the arithmetic sum of the entries and lies in `[0,36]`, and
the assigned category is characterised bucket by bucket: the four labels
partition the valid scores with half-open boundaries at 10, 15 and 20, so
there are no gaps and no overlaps. -/
theorem phq9_valid_run_spec (results : List Nat)
    (hlen : results.length = 9) (hval : ∀ x ∈ results, x ≤ 3) :
    (phq9_run results).total_score = results.sum ∧
    (phq9_run results).total_score ≤ 36 ∧
    ((phq9_run results).category = "None to Mild Depression" ↔
      (phq9_run results).total_score < 10) ∧
    ((phq9_run results).category = "Moderate Depression" ↔
      10 ≤ (phq9_run results).total_score ∧ (phq9_run results).total_score < 15) ∧
    ((phq9_run results).category = "Moderately Severe Depression" ↔
      15 ≤ (phq9_run results).total_score ∧ (phq9_run results).total_score < 20) ∧
    ((phq9_run results).category = "Severe Depression" ↔
      20 ≤ (phq9_run results).total_score) := by
  have hsum : results.sum ≤ 27 := by
    have := sum_le_of_mem_le results 3 hval
    rw [hlen] at this
    omega
  have hts : (phq9_run results).total_score = results.sum := rfl
  have hcat : (phq9_run results).category = phq9_category results.sum := rfl
  rw [hts, hcat, phq9_category_spec]
  refine ⟨rfl, by omega, ?_, ?_, ?_, ?_⟩ <;>
    split_ifs <;>
      first
        | exact iff_of_true rfl (by omega)
        | exact iff_of_false (by decide) (by omega)

/-- C3: on every valid GAD-7 answer list (length 7, entries in `[0,3]`) the
total score lies in `[0,21]` and the three anxiety labels partition the
valid scores with half-open boundaries at 10 and 15; in particular a score
of 10 maps to Moderate Anxiety and a score of 9 to None to Mild Anxiety. -/
theorem gad7_valid_run_spec (results : List Nat)
    (hlen : results.length = 7) (hval : ∀ x ∈ results, x ≤ 3) :
    (gad7_run results).total_score ≤ 21 ∧
    gad7_category 10 = "Moderate Anxiety" ∧
    gad7_category 9 = "None to Mild Anxiety" ∧
    ((gad7_run results).category = "None to Mild Anxiety" ↔
      (gad7_run results).total_score < 10) ∧
    ((gad7_run results).category = "Moderate Anxiety" ↔
      10 ≤ (gad7_run results).total_score ∧ (gad7_run results).total_score < 15) ∧
    ((gad7_run results).category = "Severe Anxiety" ↔
      15 ≤ (gad7_run results).total_score) := by
  have hsum : results.sum ≤ 21 := by
    have := sum_le_of_mem_le results 3 hval
    rw [hlen] at this
    omega
  have hts : (gad7_run results).total_score = results.sum := rfl
  have hcat : (gad7_run results).category = gad7_category results.sum := rfl
  simp only [hts, hcat, gad7_category_spec]
  refine ⟨by omega, by decide, by decide, ?_, ?_, ?_⟩ <;>
    split_ifs <;>
      first
        | exact iff_of_true rfl (by omega)
        | exact iff_of_false (by decide) (by omega)

/-- C4 as stated is false: the severe PHQ-9 bucket is `range(20, 100)`,
bounded above at 100 rather than `[20, ∞)`, so the score 100 — which is at
least 20 — is mapped to the `"Unknown"` sentinel, not to
`"Severe Depression"`. -/
theorem phq9_severe_not_unbounded :
    100 ≥ 20 ∧ phq9_category 100 = "Unknown" ∧
    phq9_category 100 ≠ "Severe Depression" := by
  refine ⟨by omega, ?_, ?_⟩ <;> decide

/-- C4 amended: every score in `[20, 100)` — the source's `range(20, 100)` —
is assigned `"Severe Depression"`, and the `"Unknown"` sentinel is returned
exactly when no range of the ordered PHQ-9 list matches, i.e. exactly for
scores of 100 and above. -/
theorem phq9_severe_bucket_spec (s : Nat) :
    (20 ≤ s → s < 100 → phq9_category s = "Severe Depression") ∧
    (phq9_category s = "Unknown" ↔ 100 ≤ s) := by
  rw [phq9_category_spec]
  constructor
  · intro h1 h2
    split_ifs <;> first | rfl | (exfalso; omega)
  · split_ifs <;>
      first
        | exact iff_of_true rfl (by omega)
        | exact iff_of_false (by decide) (by omega)

/-- Witness for C4 amended at the concrete scores 27 and 100. -/
theorem phq9_severe_bucket_spec_witness :
    phq9_category 27 = "Severe Depression" ∧
    (phq9_category 100 = "Unknown" ↔ 100 ≤ 100) :=
  ⟨(phq9_severe_bucket_spec 27).1 (by omega) (by omega),
    (phq9_severe_bucket_spec 100).2⟩

/-- Witness for C2 at the all-maximal answer list (nine times index 3),
whose total is 27 and whose category is Severe Depression. -/
theorem phq9_valid_run_spec_witness :
    (List.replicate 9 3).length = 9 ∧
    (phq9_run (List.replicate 9 3)).total_score = 27 ∧
    (phq9_run (List.replicate 9 3)).category = "Severe Depression" := by
  have h := phq9_valid_run_spec (List.replicate 9 3) (by decide) (by decide)
  exact ⟨by decide, by decide, h.2.2.2.2.2.mpr (by decide)⟩

/-- Witness for C3 at the all-zero answer list (seven times index 0),
whose total is 0 and whose category is None to Mild Anxiety. -/
theorem gad7_valid_run_spec_witness :
    (gad7_run (List.replicate 7 0)).total_score ≤ 21 ∧
    (gad7_run (List.replicate 7 0)).category = "None to Mild Anxiety" := by
  have h := gad7_valid_run_spec (List.replicate 7 0) (by decide) (by decide)
  exact ⟨h.1, h.2.2.2.1.mpr (by decide)⟩

/-- C5 fails on the code as stated: `screening_page` contains no
`InvalidAnswerSet` (nor any other) input validation — handed a malformed
answer list of length 8, the PHQ-9 scoring computes a total score and a
category instead of failing. -/
theorem phq9_scores_malformed_input :
    (List.replicate 8 0).length ≠ 9 ∧
    phq9_run (List.replicate 8 0) =
      { total_score := 0, category := "None to Mild Depression",
        escalate := false } := by
  exact ⟨by decide, by decide⟩

/-- C5 amended: the code has no `InvalidAnswerSet` rejection and would score
a malformed list by raw summation; instead, malformed input is unreachable,
because the page assembles the answer list from one radio selection per
question — whatever options are chosen, the resulting list has length
exactly 9 (PHQ-9) or 7 (GAD-7) and every entry is an option index in
`[0, 3]`. -/
theorem collect_results_valid (choice : Nat → Fin OPTIONS.length) :
    (collect_results PHQ9_QUESTIONS choice).length = 9 ∧
    (∀ x ∈ collect_results PHQ9_QUESTIONS choice, x ≤ 3) ∧
    (collect_results GAD7_QUESTIONS choice).length = 7 ∧
    (∀ x ∈ collect_results GAD7_QUESTIONS choice, x ≤ 3) := by
  refine ⟨by simp [collect_results, PHQ9_QUESTIONS], ?_,
    by simp [collect_results, GAD7_QUESTIONS], ?_⟩ <;>
  · intro x hx
    simp only [collect_results, List.mem_map, List.mem_range] at hx
    obtain ⟨i, -, rfl⟩ := hx
    have h4 : (choice i).val < 4 := (choice i).isLt
    omega

/-- Witness for C5 amended at the constant all-maximal choice. -/
theorem collect_results_valid_witness :
    (collect_results PHQ9_QUESTIONS fun _ => (⟨3, by decide⟩ : Fin OPTIONS.length)).length = 9 ∧
    (collect_results GAD7_QUESTIONS fun _ => (⟨3, by decide⟩ : Fin OPTIONS.length)).length = 7 := by
  have h := collect_results_valid fun _ => (⟨3, by decide⟩ : Fin OPTIONS.length)
  exact ⟨h.1, h.2.2.1⟩

/-- C6: a mood submission of score 1 and of score 5 each append a persisted
row carrying that score, a submission of score 0 or 6 lies outside the
slider bounds and never reaches the insert — the table is unchanged and no
record is created — and after any submission to a table whose rows all have
scores in `[1, 5]`, every row still has its score in `[1, 5]`. -/
theorem mood_submit_spec (t : Table MoodRow) (uid : Nat) (notes : String)
    (hinv : ∀ r ∈ t.rows, 1 ≤ r.mood_score ∧ r.mood_score ≤ 5) :
    mood_submit t uid 1 notes = (t.insertMood uid 1 notes, true) ∧
    mood_submit t uid 5 notes = (t.insertMood uid 5 notes, true) ∧
    mood_submit t uid 0 notes = (t, false) ∧
    mood_submit t uid 6 notes = (t, false) ∧
    ∀ score, ∀ r ∈ (mood_submit t uid score notes).1.rows,
      1 ≤ r.mood_score ∧ r.mood_score ≤ 5 := by
  refine ⟨by simp [mood_submit], by simp [mood_submit],
    by simp [mood_submit], by simp [mood_submit], ?_⟩
  intro score r hr
  by_cases hs : 1 ≤ score ∧ score ≤ 5
  · simp only [mood_submit, if_pos hs, Table.insertMood] at hr
    rcases List.mem_append.mp hr with hr2 | hr2
    · exact hinv r hr2
    · rw [List.mem_singleton.mp hr2]
      exact hs
  · simp only [mood_submit, if_neg hs] at hr
    exact hinv r hr

/-- Witness for C6 at an initially empty mood table. -/
theorem mood_submit_spec_witness :
    mood_submit ⟨[], 1, 0⟩ 7 0 "" = (⟨[], 1, 0⟩, false) ∧
    mood_submit ⟨[], 1, 0⟩ 7 1 "" = (Table.insertMood ⟨[], 1, 0⟩ 7 1 "", true) := by
  have h := mood_submit_spec ⟨[], 1, 0⟩ 7 "" (by simp)
  exact ⟨h.2.2.1, h.1⟩

/-- C7: signup with an already-taken username returns the duplicate-conflict
failure (`False` in the source) and leaves the users table — in particular
the stored password hash of the existing row — unchanged, for every hash
function, table state and supplied password. -/
theorem signup_duplicate_spec (h : String → String) (t : UsersTable)
    (username password : String)
    (hdup : ∃ r ∈ t.rows, r.username = username) :
    signup h t username password = (false, t) := by
  obtain ⟨r, hr, hru⟩ := hdup
  have hany : (t.rows.any fun s => s.username = username) = true := by
    simp only [List.any_eq_true, decide_eq_true_eq]
    exact ⟨r, hr, hru⟩
  simp [signup, UsersTable.insert, hany]

/-- Witness for C7: a second signup of the username alice fails and
preserves the stored row with its hash. -/
theorem signup_duplicate_spec_witness :
    signup (fun s => s) ⟨[⟨1, "alice", "hpw"⟩], 2⟩ "alice" "other" =
      (false, ⟨[⟨1, "alice", "hpw"⟩], 2⟩) :=
  signup_duplicate_spec (fun s => s) ⟨[⟨1, "alice", "hpw"⟩], 2⟩ "alice" "other"
    ⟨⟨1, "alice", "hpw"⟩, by simp, rfl⟩

/-- C8: login yields the uniform no-user result both when the username is
absent and when it is present with a non-matching password hash — the two
failures return the same value — and yields the exact stored row, id
included, on a correct pair, provided the username identifies at most one
row (the invariant of the UNIQUE column).  The wrong-password case is
stated as the hash mismatch the SQL query compares; barring SHA-256
collisions this is precisely the incorrect-password condition. -/
theorem login_spec (h : String → String) (t : UsersTable)
    (username password : String) :
    ((∀ r ∈ t.rows, r.username ≠ username) →
      login h t username password = none) ∧
    ((∀ r ∈ t.rows, r.username = username → r.password ≠ h password) →
      login h t username password = none) ∧
    (∀ r ∈ t.rows, r.username = username → r.password = h password →
      (∀ r2 ∈ t.rows, r2.username = username → r2 = r) →
      login h t username password = some r) := by
  refine ⟨?_, ?_, ?_⟩
  · intro hno
    simp only [login, List.find?_eq_none]
    intro r hr
    simp only [Bool.and_eq_true, decide_eq_true_eq, not_and]
    intro hu
    exact absurd hu (hno r hr)
  · intro hwrong
    simp only [login, List.find?_eq_none]
    intro r hr
    simp only [Bool.and_eq_true, decide_eq_true_eq, not_and]
    intro hu
    exact hwrong r hr hu
  · intro r hr hu hp huniq
    refine find?_eq_some_of_unique _ _ r hr ?_ ?_
    · simp [hu, hp]
    · intro b hb hpb
      simp only [Bool.and_eq_true, decide_eq_true_eq] at hpb
      exact huniq b hb hpb.1

/-- Witness for C8 on a one-row table with the identity as hash function:
wrong password and unknown username both give `none`; the correct pair
returns the stored row with id 1. -/
theorem login_spec_witness :
    login (fun s => s) ⟨[⟨1, "alice", "pw"⟩], 2⟩ "alice" "bad" = none ∧
    login (fun s => s) ⟨[⟨1, "alice", "pw"⟩], 2⟩ "bob" "pw" = none ∧
    login (fun s => s) ⟨[⟨1, "alice", "pw"⟩], 2⟩ "alice" "pw" =
      some ⟨1, "alice", "pw"⟩ := by
  refine ⟨(login_spec (fun s => s) ⟨[⟨1, "alice", "pw"⟩], 2⟩ "alice" "bad").2.1 ?_,
    (login_spec (fun s => s) ⟨[⟨1, "alice", "pw"⟩], 2⟩ "bob" "pw").1 ?_,
    (login_spec (fun s => s) ⟨[⟨1, "alice", "pw"⟩], 2⟩ "alice" "pw").2.2
      ⟨1, "alice", "pw"⟩ (by simp) rfl rfl ?_⟩
  · intro r hr hu
    simp only [List.mem_singleton] at hr
    subst hr
    decide
  · intro r hr
    simp only [List.mem_singleton] at hr
    subst hr
    decide
  · intro r2 hr2 _
    simpa using hr2

/-- C9: a row appended for user A is invisible to the listing of any other
user B — each of the three per-user listings is unchanged by the insert —
and every listing returns only rows owned by the requesting user. -/
theorem per_user_isolation (A B : Nat) (hAB : A ≠ B) :
    (∀ (t : Table JournalRow) (text : String),
      journal_list_for_user (t.insertJournal A text) B
        = journal_list_for_user t B) ∧
    (∀ (t : Table MoodRow) (score : Nat) (notes : String),
      mood_list_for_user (t.insertMood A score notes) B
        = mood_list_for_user t B) ∧
    (∀ (t : Table ScreeningRow) (ty c : String) (score : Nat),
      screening_list_for_user (t.insertScreening A ty score c) B
        = screening_list_for_user t B) ∧
    (∀ t : Table JournalRow, ∀ r ∈ journal_list_for_user t B, r.user_id = B) ∧
    (∀ t : Table MoodRow, ∀ r ∈ mood_list_for_user t B, r.user_id = B) ∧
    (∀ t : Table ScreeningRow, ∀ r ∈ screening_list_for_user t B, r.user_id = B) := by
  refine ⟨?_, ?_, ?_, ?_, ?_, ?_⟩
  · intro t text
    simp [journal_list_for_user, Table.insertJournal, List.filter_append, hAB]
  · intro t score notes
    simp [mood_list_for_user, Table.insertMood, List.filter_append, hAB]
  · intro t ty c score
    simp [screening_list_for_user, Table.insertScreening, List.filter_append, hAB]
  · intro t r hr
    rw [journal_list_for_user, List.mem_reverse] at hr
    simpa using (List.mem_filter.mp hr).2
  · intro t r hr
    simpa using (List.mem_filter.mp hr).2
  · intro t r hr
    simpa using (List.mem_filter.mp hr).2

/-- Witness for C9: a journal row inserted for user 1 does not appear in
the listing of user 2, which stays empty. -/
theorem per_user_isolation_witness :
    journal_list_for_user (Table.insertJournal ⟨[], 1, 0⟩ 1 "hi") 2 = [] := by
  have h := per_user_isolation 1 2 (by omega)
  rw [h.1 ⟨[], 1, 0⟩ "hi"]
  rfl

/-- C10: saving an empty journal entry inserts no row — the table is
returned unchanged and the user is warned — and a row is created exactly
when the submitted text is non-empty, in which case the new row carries
the submitted text. -/
theorem journal_save_spec (t : Table JournalRow) (uid : Nat) (entry : String) :
    (entry = "" → journal_save t uid entry = (t, false)) ∧
    (entry ≠ "" →
      journal_save t uid entry = (Table.insertJournal t uid entry, true)) := by
  constructor
  · intro he
    simp [journal_save, he]
  · intro he
    simp [journal_save, he]

/-- Witness for C10 at the empty and at a non-empty entry text. -/
theorem journal_save_spec_witness :
    journal_save ⟨[], 1, 0⟩ 4 "" = (⟨[], 1, 0⟩, false) ∧
    journal_save ⟨[], 1, 0⟩ 4 "today" =
      (Table.insertJournal ⟨[], 1, 0⟩ 4 "today", true) :=
  ⟨(journal_save_spec ⟨[], 1, 0⟩ 4 "").1 rfl,
    (journal_save_spec ⟨[], 1, 0⟩ 4 "today").2 (by decide)⟩

end MentalHealth
